import Mathlib

/-!
Verification of the `ci_connection` scripts (halt-for-connection decision,
PR-label retrieval, run-state preservation and the session server).

Each Python function used by the claims is shallowly embedded as an
executable Lean definition.  Environment variables are passed explicitly as
`Option String` values (`none` = unset), HTTP traffic as an explicit list of
scripted responses, and `sys.exit` / uncaught exceptions as the `error`
branch of an `Except`.
-/

namespace CiConn

/-! ### `utils.py` and `wait_for_connection.py`: label constants -/

def HALT_ALWAYS_LABEL : String := "CI Connection Halt - Always"

def HALT_ON_RETRY_LABEL : String := "CI Connection Halt - On Retry"

def HALT_ON_ERROR_LABEL : String := "CI Connection Halt - On Error"

/-! ### `_is_true_like_env_var` (wait_for_connection.py, lines 55-60)

`os.getenv(var, "").lower()` is modelled by `Option.getD` plus `toLower`
(all values of interest are ASCII, where Lean's `toLower` agrees with
Python's). -/

def negativeChoices : List String :=
  ["0", "false", "n", "no", "none", "null", "n/a"]

/-- Python's `str.lower()` (all values of interest are ASCII, where Lean's
`Char.toLower` agrees with Python). -/
def pyLower (s : String) : String :=
  String.mk (s.toList.map Char.toLower)

def is_true_like_env_var (varVal : Option String) : Bool :=
  let v := pyLower (varVal.getD "")
  v ≠ "" && !(negativeChoices.contains v)

/-! ### `_get_run_attempt_num` (wait_for_connection.py, lines 43-49)

Python's `int(s)` accepts optional surrounding whitespace, an optional
sign, and a non-empty digit string in which single underscores may separate
digits.  On a string that does not match, it raises `ValueError`, which the
function catches, returning 1.  On `None` (variable unset) it raises
`TypeError`, which the `except ValueError` clause does NOT catch: we model
that uncaught exception as `Except.error ()`. -/

def isPySpace (c : Char) : Bool :=
  c = ' ' || c = '\t' || c = '\n' || c = '\r' || c = '\x0b' || c = '\x0c'

def pyStripChars (l : List Char) : List Char :=
  ((l.dropWhile isPySpace).reverse.dropWhile isPySpace).reverse

/-- Digit run with optional single underscores between digits:
`d (d | _ d)*` after the first digit has been consumed. -/
def pyDigitsTail : List Char → Option Nat → Option Nat
  | [], acc => acc
  | c :: cs, acc =>
    match acc with
    | none => none
    | some n =>
      if c.isDigit then pyDigitsTail cs (some (n * 10 + (c.toNat - '0'.toNat)))
      else if c = '_' then
        match cs with
        | d :: cs' =>
          if d.isDigit then
            pyDigitsTail cs' (some (n * 10 + (d.toNat - '0'.toNat)))
          else none
        | [] => none
      else none

def pyIntOfString (s : String) : Option Int :=
  let l := pyStripChars s.toList
  let core : List Char → Option Nat := fun cs =>
    match cs with
    | c :: rest =>
      if c.isDigit then pyDigitsTail rest (some (c.toNat - '0'.toNat))
      else none
    | [] => none
  match l with
  | '+' :: rest => (core rest).map Int.ofNat
  | '-' :: rest => (core rest).map (fun n => -(n : Int))
  | rest => (core rest).map Int.ofNat

/-- Model of `_get_run_attempt_num`, taking the value of `GITHUB_RUN_ATTEMPT` as an
explicit parameter.  `Except.error ()` models the uncaught `TypeError`
raised by `int(None)` when the variable is unset. -/
def get_run_attempt_num (envVal : Option String) : Except Unit Int :=
  match envVal with
  | none => Except.error ()
  | some s =>
    match pyIntOfString s with
    | some n => Except.ok n
    | none => Except.ok 1

/-! ### `is_debug_logging_enabled_and_job_type_is_schedule_or_workflow_dispatch`
(wait_for_connection.py, lines 63-88) -/

def is_debug_and_schedule_or_dispatch
    (runnerDebug eventName : Option String) : Bool :=
  is_true_like_env_var runnerDebug &&
    ((eventName.getD "") = "schedule" || (eventName.getD "") = "workflow_dispatch")

/-! ### `check_if_labels_require_connection_halting`
(wait_for_connection.py, lines 91-138)

The label-fetch result is a parameter (`none` = `retrieve_labels` returned
`None`); `stateFileExists` models `os.path.exists(utils.STATE_INFO_PATH)`;
`runAttempt` is the module-level `_RUN_ATTEMPT`. -/

def check_if_labels_require_connection_halting
    (fetched : Option (List String)) (stateFileExists : Bool)
    (runAttempt : Int) : Option Bool :=
  match fetched with
  | none => none
  | some labels =>
    if labels.contains HALT_ON_ERROR_LABEL && stateFileExists then some true
    else if labels.contains HALT_ALWAYS_LABEL then some true
    else if runAttempt > 1 && labels.contains HALT_ON_RETRY_LABEL then some true
    else some false

/-! ### `should_halt_for_connection` (wait_for_connection.py, lines 141-190)

`Except.error 1` models `sys.exit(1)`; `Except.ok b` models a normal
return of `b`.  The label check's outcome is passed in as `labelsCheck`. -/

def should_halt_for_connection
    (waitRegardless waitAfterParam : Bool)
    (mlciWaitVar haltDispatchVar runnerDebug eventName : Option String)
    (labelsCheck : Option Bool) : Except Nat Bool :=
  let waitAfter := waitAfterParam || is_true_like_env_var mlciWaitVar
  if !waitAfter && waitRegardless then Except.ok true
  else if is_true_like_env_var haltDispatchVar then Except.ok true
  else if is_debug_and_schedule_or_dispatch runnerDebug eventName then
    Except.ok true
  else
    match labelsCheck with
    | some true => Except.ok true
    | some false => if waitAfter then Except.ok true else Except.ok false
    | none => if !waitAfter then Except.error 1 else Except.ok true

/-! ### `get_labels.py`: the API fetch loop (`_get_labels_via_api`, lines 70-194)

The network is modelled by a scripted list of responses, consumed one per
loop iteration.  `HttpResp.ok body` is a 200 response with the given body,
`HttpResp.err code rl` is an `HTTPError` with status `code` and
`x-ratelimit-remaining` header `rl`, and `HttpResp.exc` is any other
exception raised by `urlopen` (URLError, timeout, ...), caught by the broad
`except Exception` clause.  Each attempt made is recorded in the trace with
the authentication state of its request and the number of seconds slept
immediately before it. -/

inductive HttpResp where
  | ok (body : String)
  | err (code : Nat) (rlRemaining : Option String)
  | exc
deriving DecidableEq, Repr

structure Attempt where
  authenticated : Bool
  sleepBefore : Nat
deriving DecidableEq, Repr

def totalAttempts : Nat := 3

/-- Model of `_wait_before_repeat_request` (lines 53-60): called with the already
incremented attempt counter; sleeps `2 * 2^(cur-2)` seconds unless the
counter exceeds the total. -/
def sleepAmount (curAttempt : Nat) : Nat :=
  if curAttempt > totalAttempts then 0 else 2 * 2 ^ (curAttempt - 2)

def isAuthErrCode (code : Nat) : Bool :=
  code = 401 || code = 403 || code = 429

/-- The `while cur_attempt <= total_attempts` loop of `_get_labels_via_api`.
`slept` is the sleep executed just before the attempt about to be made.
Returns the trace of attempts and the response body obtained by `break`
(`none` = the loop ended without data, or an early `return None`). -/
def fetchLoop (auth : Bool) (curAttempt slept : Nat) :
    List HttpResp → List Attempt × Option String
  | [] => ([], none)
  | r :: rest =>
    if curAttempt > totalAttempts then ([], none)
    else
      let att : Attempt := ⟨auth, slept⟩
      match r with
      | HttpResp.ok body => ([att], some body)
      | HttpResp.exc =>
        let next := curAttempt + 1
        let out := fetchLoop auth next (sleepAmount next) rest
        (att :: out.1, out.2)
      | HttpResp.err code _rl =>
        if code = 404 then ([att], none)
        else if isAuthErrCode code then
          if auth then
            -- strip the token, retry immediately with no sleep
            let out := fetchLoop false (curAttempt + 1) 0 rest
            (att :: out.1, out.2)
          else if code = 403 then ([att], none)
          else if code = 401 then ([att], none)
          else
            -- 429 while unauthenticated: logged, then falls through to retry
            let next := curAttempt + 1
            let out := fetchLoop auth next (sleepAmount next) rest
            (att :: out.1, out.2)
        else
          let next := curAttempt + 1
          let out := fetchLoop auth next (sleepAmount next) rest
          (att :: out.1, out.2)

/-! ### JSON values and the post-fetch parse -/

inductive Json where
  | null
  | bool (b : Bool)
  | num (n : Int)
  | str (s : String)
  | arr (elems : List Json)
  | obj (fields : List (String × Json))

/-- Python conflates JSON `null` with `None`: a parsed value of `null` is
indistinguishable from a fetch failure once stored in `label_json`. -/
def pyCollapseNull (j : Json) : Option Json :=
  match j with
  | Json.null => none
  | j => some j

/-- Model of `_get_labels_via_api` after the loop (lines 184-194): empty data is
falsy (`if not data`), a `json.JSONDecodeError` leaves `label_json = None`,
and a parsed `null` is also `None`.  `parse` is the oracle for
`json.loads`. -/
def get_labels_via_api (auth : Bool) (resps : List HttpResp)
    (parse : String → Option Json) : List Attempt × Option Json :=
  let out := fetchLoop auth 1 0 resps
  match out.2 with
  | none => (out.1, none)
  | some data =>
    if data = "" then (out.1, none)
    else
      match parse data with
      | none => (out.1, none)
      | some j => (out.1, pyCollapseNull j)

/-! ### `_get_labels_from_event_file` (lines 197-213)

`payload` is the oracle for `json.load` on the event file (`none` = the
open or parse raised, caught by the `except Exception`).  Python's
`x.get(key, default)` raises `AttributeError` on a non-dict `x`, which the
same `except` turns into `None`. -/

def pyDictGet (j : Json) (key : String) (default : Json) : Option Json :=
  match j with
  | Json.obj fields =>
    -- Python dicts built from JSON keep the LAST duplicate key
    match fields.reverse.lookup key with
    | some v => some v
    | none => some default
  | _ => none

def get_labels_from_event_file (payload : Option Json) : Option Json :=
  match payload with
  | none => none
  | some j =>
    match pyDictGet j "pull_request" (Json.obj []) with
    | none => none
    | some pr => pyDictGet pr "labels" (Json.arr [])

/-! ### `_extract_labels` (lines 216-229) -/

/-- Python `label["name"]`: `KeyError` on a dict missing the key, `TypeError` on
any non-dict — both caught, yielding `None` for the whole extraction. -/
def labelName (j : Json) : Option Json :=
  match j with
  | Json.obj fields => fields.reverse.lookup "name"
  | _ => none

def extract_labels (data : Json) : Option (List Json) :=
  match data with
  | Json.arr elems => elems.mapM labelName
  | Json.null => some []  -- `isinstance` fails and `data is not None` fails
  | _ => none

/-! ### `retrieve_labels` (lines 232-278) -/

/-- Model of `re.search(r"refs/pull/(\d+)/", ref)` specialised to this one pattern:
try every start position, matching the literal prefix, then one or more
digits, then a slash. -/
def prMatchAt (l : List Char) : Option (List Char) :=
  if "refs/pull/".toList.isPrefixOf l then
    let rest := l.drop 10
    let digits := rest.takeWhile Char.isDigit
    if digits ≠ [] && (rest.drop digits.length).take 1 = ['/'] then
      some digits
    else none
  else none

def prSearch : List Char → Option (List Char)
  | [] => none
  | c :: cs =>
    match prMatchAt (c :: cs) with
    | some d => some d
    | none => prSearch cs

structure RetrieveResult where
  /-- Outcome field: `Except.error ()` models the `EnvironmentError` raised when
  `GITHUB_REF` is unset or empty; `Except.ok r` is a normal return. -/
  outcome : Except Unit (Option (List Json))
  /-- whether `_get_labels_from_event_file` was consulted -/
  usedFallback : Bool

def retrieve_labels (githubRef : String) (hasToken : Bool)
    (resps : List HttpResp) (parse : String → Option Json)
    (eventPayload : Option Json) : RetrieveResult :=
  if githubRef = "" then ⟨Except.error (), false⟩
  else if !("refs/pull/".toList.isPrefixOf githubRef.toList) then
    ⟨Except.ok (some []), false⟩
  else
    match prSearch githubRef.toList with
    | none => ⟨Except.ok none, false⟩
    | some _prNum =>
      let api := get_labels_via_api hasToken resps parse
      match api.2 with
      | none =>
        -- fall back on the event payload file
        match (get_labels_from_event_file eventPayload).bind pyCollapseNull with
        | none => ⟨Except.ok none, true⟩
        | some j => ⟨Except.ok (extract_labels j), true⟩
      | some j => ⟨Except.ok (extract_labels j), false⟩

/-! ### `preserve_run_state.py` -/

def VARS_DENYLIST : List String := ["GITHUB_TOKEN"]

def ENV_DENYLIST_VAR_NAME : String := "GML_ACTIONS_DEBUG_VARS_DENYLIST"

def ENV_ALLOWLIST_VAR_NAME : String := "GML_ACTIONS_DEBUG_VARS_ALLOWLIST"

/-- ASCII fragment of Python's regex class `\w` (Python's `\w` additionally
matches non-ASCII Unicode word characters; all inputs of interest here are
ASCII, where the two agree). -/
def isPyWordAscii (c : Char) : Bool :=
  c.isAlphanum || c = '_'

/-- Python `s.split(",")` on the character list -/
def splitOnCommaAux : List Char → List Char → List (List Char)
  | [], acc => [acc.reverse]
  | ',' :: cs, acc => acc.reverse :: splitOnCommaAux cs []
  | c :: cs, acc => splitOnCommaAux cs (c :: acc)

def splitOnComma (l : List Char) : List (List Char) :=
  splitOnCommaAux l []

/-- Model of `_get_names_from_env_vars_list` (lines 112-134), with
`raise_on_invalid_value=False` as used by `save_env_state`/`save_all_info`:
strip, reject the whole string if `re.search(r"[^\w,]")` finds an invalid
character, otherwise split on commas dropping empty entries. -/
def get_names_from_env_vars_list (envVarList : String) : List String :=
  let stripped := pyStripChars envVarList.toList
  if stripped = [] then []
  else if stripped.any (fun c => !(isPyWordAscii c || c = ',')) then []
  else
    ((splitOnComma stripped).map
      (fun t => String.mk (pyStripChars t))).filter (· ≠ "")

/-- lexicographic code-point comparison (Python's `str` ordering) -/
def strLeList : List Char → List Char → Bool
  | [], _ => true
  | _ :: _, [] => false
  | a :: as, b :: bs =>
    if a.toNat < b.toNat then true
    else if b.toNat < a.toNat then false
    else strLeList as bs

def strLe (a b : String) : Bool := strLeList a.toList b.toList

def insertStr (x : String) : List String → List String
  | [] => [x]
  | y :: ys => if strLe x y then x :: y :: ys else y :: insertStr x ys

def sortStrs (l : List String) : List String := l.foldr insertStr []

/-- Python's `sorted(set(xs))`: distinct elements, sorted. -/
def sortedDedup (l : List String) : List String := sortStrs l.dedup

/-- Model of `add_vars_from_env` (lines 137-145); `envVal` is the looked-up value of
the list-bearing environment variable (`os.getenv(name, "")`). -/
def add_vars_from_env (envVal : Option String) (varList : List String) :
    List String :=
  sortedDedup (varList ++ get_names_from_env_vars_list (envVal.getD ""))

def lookupEnv (environ : List (String × String)) (k : String) : Option String :=
  environ.lookup k

/-- the `final_denylist` computed by `save_env_state` (lines 164-174) -/
def final_denylist (environ : List (String × String)) (denylist : List String)
    (checkEnvLists : Bool) : List String :=
  let base := (denylist ++ VARS_DENYLIST).dedup
  if checkEnvLists then
    add_vars_from_env (lookupEnv environ ENV_DENYLIST_VAR_NAME) base
  else base

/-- the `final_allowlist` computed by `save_env_state` (lines 168-175);
`allowlist = none` models the Python default `None`. -/
def final_allowlist (environ : List (String × String))
    (allowlist : Option (List String)) (checkEnvLists : Bool) : List String :=
  let base := allowlist.getD []
  if checkEnvLists then
    add_vars_from_env (lookupEnv environ ENV_ALLOWLIST_VAR_NAME) base
  else base

def insertPair (x : String × String) :
    List (String × String) → List (String × String)
  | [] => [x]
  | y :: ys => if strLe x.1 y.1 then x :: y :: ys else y :: insertPair x ys

/-- Python `out_vars.sort(key=lambda item: item[0])` -/
def sortPairsByKey (l : List (String × String)) : List (String × String) :=
  l.foldr insertPair []

/-- Model of `save_env_state` (lines 148-196), restricted to its returned dict (the
optional file write has no bearing on the claims).  `environ` models
`os.environ` as an association list with distinct keys. -/
def save_env_state (environ : List (String × String))
    (denylist : List String) (allowlist : Option (List String))
    (checkEnvLists : Bool) : List (String × String) :=
  let deny := final_denylist environ denylist checkEnvLists
  let allow := final_allowlist environ allowlist checkEnvLists
  sortPairsByKey (environ.filter fun kv =>
    (allow.isEmpty || allow.contains kv.1) && !deny.contains kv.1)

/-! ### the session server (`wait_for_connection.py`, lines 193-233, 287-317) -/

def KEEP_ALIVE : String := "keep_alive"

def CONNECTION_CLOSED : String := "connection_closed"

def CONNECTION_ESTABLISHED : String := "connection_established"

def ENV_STATE_REQUESTED : String := "env_state_requested"

structure WaitState where
  lastTime : Nat
  timeout : Nat
  waitingForClose : Bool
  stopEvent : Bool
deriving DecidableEq, Repr

def preConnectTimeout : Nat := 10 * 60

def reConnectTimeout : Nat := 15 * 60

/-- the class-level initial values of `WaitInfo` (startTime is the module
load `time.time()`) -/
def initialWaitState (startTime : Nat) : WaitState :=
  ⟨startTime, preConnectTimeout, false, false⟩

/-- One message of the `for message in messages` loop of
`process_messages`.  The optional second component is the environment
snapshot written back to the client (`env_state_requested` branch). -/
def handleMessage (now : Nat) (environ : List (String × String))
    (s : WaitState) (msg : String) :
    WaitState × Option (List (String × String)) :=
  if msg = KEEP_ALIVE then ({ s with lastTime := now }, none)
  else if msg = CONNECTION_CLOSED then
    ({ s with waitingForClose := true, stopEvent := true }, none)
  else if msg = CONNECTION_ESTABLISHED then
    ({ s with lastTime := now, timeout := reConnectTimeout }, none)
  else if msg = ENV_STATE_REQUESTED then
    (s, some (save_env_state environ VARS_DENYLIST none true))
  else (s, none)

structure ServerStep where
  state : WaitState
  /-- the JSON objects written back on the connection, in order -/
  responses : List (List (String × String))
  /-- Flag recording that `writer.close()` runs unconditionally at the end -/
  connectionClosed : Bool
deriving DecidableEq, Repr

/-- Model of `process_messages` (lines 204-232) for one connection, at message
granularity (the byte-level `splitlines` is not modelled). -/
def process_messages (now : Nat) (environ : List (String × String))
    (msgs : List String) (s : WaitState) : ServerStep :=
  let out := msgs.foldl
    (fun acc msg =>
      let r := handleMessage now environ acc.1 msg
      (r.1, acc.2 ++ r.2.toList))
    (s, ([] : List (List (String × String))))
  ⟨out.1, out.2, true⟩

/-- The per-tick termination test of the `wait_for_connection` loop
(lines 301-313): terminate when a close was requested or when
`int(now - last_time) > timeout`. -/
def shouldTerminate (now : Nat) (s : WaitState) : Bool :=
  s.waitingForClose || decide (now - s.lastTime > s.timeout)

/-! ### Trace predicates used to state the retry/downgrade claims

A fetch trace pairs the i-th recorded attempt with the i-th scripted
response (the loop consumes exactly one response per attempt), so these
checkers walk the two lists in lockstep. -/

def respIsAuthErr : HttpResp → Bool
  | HttpResp.err code _ => isAuthErrCode code
  | _ => false

/-- Codes 401 or 403 (not 429) -/
def respIsHardAuthErr : HttpResp → Bool
  | HttpResp.err code _ => code = 401 || code = 403
  | _ => false

/-- The claim as stated: every unauthenticated attempt answered by
401/403/429 is the final attempt of the fetch. -/
def unauthAuthErrTerminal : List Attempt → List HttpResp → Bool
  | a :: tr, r :: rs =>
    if !a.authenticated && respIsAuthErr r then tr.isEmpty
    else unauthAuthErrTerminal tr rs
  | _, _ => true

/-- Amended: every unauthenticated attempt answered by 401/403 is the
final attempt of the fetch. -/
def unauthHardFailTerminal : List Attempt → List HttpResp → Bool
  | a :: tr, r :: rs =>
    if !a.authenticated && respIsHardAuthErr r then tr.isEmpty
    else unauthHardFailTerminal tr rs
  | _, _ => true

/-- Some attempt of the trace is unauthenticated and answered by 401/403. -/
def hasUnauthHardFail : List Attempt → List HttpResp → Bool
  | a :: tr, r :: rs =>
    (!a.authenticated && respIsHardAuthErr r) || hasUnauthHardFail tr rs
  | _, _ => false

/-- No attempt of the trace is an authenticated one answered by
401/403/429, i.e. no identity downgrade happens. -/
def noAuthDowngrade : List Attempt → List HttpResp → Bool
  | a :: tr, r :: rs =>
    !(a.authenticated && respIsAuthErr r) && noAuthDowngrade tr rs
  | _, _ => true

/-- Whenever an authenticated attempt is answered by 401/403/429: the next
attempt, if one is made, is unauthenticated with no sleep before it, and no
further downgrade happens in the rest of the fetch. -/
def downgradeNextCheck : List Attempt → List HttpResp → Bool
  | a :: tr, r :: rs =>
    if a.authenticated && respIsAuthErr r then
      (match tr with
       | [] => true
       | b :: _ => !b.authenticated && b.sleepBefore = 0) && noAuthDowngrade tr rs
    else downgradeNextCheck tr rs
  | _, _ => true

/-- The claim as stated: after an authenticated attempt answered by
401/403/429 the very next attempt IS made (unauthenticated, no sleep). -/
def downgradeNextStrict : List Attempt → List HttpResp → Bool
  | a :: tr, r :: rs =>
    if a.authenticated && respIsAuthErr r then
      (match tr with
       | [] => false
       | b :: _ => !b.authenticated && b.sleepBefore = 0) && noAuthDowngrade tr rs
    else downgradeNextStrict tr rs
  | _, _ => true

def allUnauthenticated (tr : List Attempt) : Bool :=
  tr.all (fun a => !a.authenticated)

/-- True when the `Except` is a normal (non-raising) return -/
def exceptIsOk : Except Unit (Option (List Json)) → Bool
  | Except.ok _ => true
  | Except.error _ => false

/-- The claim's words for the `env_state_requested` response (spec side of
the comparison): the full environment filtered by the fixed deny-list only,
no allow-list applied. -/
def envFixedDenyOnly (environ : List (String × String)) :
    List (String × String) :=
  sortPairsByKey (environ.filter fun kv => !VARS_DENYLIST.contains kv.1)

/-! ## Theorems -/

/-- C1: in `should_halt_for_connection`, when the label check returns
absent (`none`), the explicit-code override, the `halt-dispatch-input`
flag and the debug-and-scheduled heuristic all evaluated false, the
function calls `sys.exit(1)` (modelled `Except.error 1`) when the
effective wait-after-checks flag is unset, and returns `True` when it is
set. -/
theorem should_halt_label_fetch_absent
    (wr wap : Bool) (mlci d dbg ev : Option String)
    (hwr : wr = false)
    (hd : is_true_like_env_var d = false)
    (hdbg : is_debug_and_schedule_or_dispatch dbg ev = false) :
    ((wap || is_true_like_env_var mlci) = false →
      should_halt_for_connection wr wap mlci d dbg ev none =
        Except.error 1) ∧
      ((wap || is_true_like_env_var mlci) = true →
        should_halt_for_connection wr wap mlci d dbg ev none =
          Except.ok true) := by
  subst hwr
  constructor <;> intro h <;>
    simp [should_halt_for_connection, hd, hdbg, h]

/-- Witness for C1: with everything unset, the fetch-absent case exits
with code 1; with the wait-after-checks parameter set, it halts anyway. -/
theorem should_halt_label_fetch_absent_witness :
    should_halt_for_connection false false none none none none none =
        Except.error 1 ∧
      should_halt_for_connection false true none none none none none =
        Except.ok true := by
  constructor
  · exact (should_halt_label_fetch_absent false false none none none none rfl
      (by decide) (by decide)).1 (by decide)
  · exact (should_halt_label_fetch_absent false true none none none none rfl
      (by decide) (by decide)).2 (by decide)

/-- C2: on a successful label fetch the label-based decision is exactly:
halt-always present, or halt-on-prior-failure present with the execution
state file on disk, or halt-on-retry present with run attempt ≥ 2; and in
the scenario (no override, no dispatch input, no debug, fetch returns only
an unrelated label) `should_halt_for_connection` returns `False`. -/
theorem labels_halt_decision_characterisation :
    (∀ (labels : List String) (stateFileExists : Bool) (runAttempt : Int),
      check_if_labels_require_connection_halting (some labels) stateFileExists
          runAttempt =
        some (labels.contains HALT_ALWAYS_LABEL ||
          (labels.contains HALT_ON_ERROR_LABEL && stateFileExists) ||
          (labels.contains HALT_ON_RETRY_LABEL && decide (runAttempt ≥ 2)))) ∧
      should_halt_for_connection false false none none none none
        (check_if_labels_require_connection_halting (some ["unrelated-label"])
          false 1) = Except.ok false := by
  constructor
  · intro labels ex att
    have hatt : decide (att > 1) = decide (att ≥ 2) :=
      decide_eq_decide.mpr (by omega)
    simp only [check_if_labels_require_connection_halting, hatt]
    cases h1 : labels.contains HALT_ON_ERROR_LABEL <;>
      cases h2 : labels.contains HALT_ALWAYS_LABEL <;>
        cases h3 : labels.contains HALT_ON_RETRY_LABEL <;>
          cases h4 : decide (att ≥ 2) <;>
            cases ex <;> simp [h1, h2, h3, h4]
  · rfl

/-- C9: `_get_run_attempt_num` with `GITHUB_RUN_ATTEMPT` unset evaluates
`int(None)`, which raises `TypeError`; the `except ValueError` clause does
not catch it, so the function raises (modelled `Except.error ()`) instead
of returning 1 as its own log message ("Could not retrieve
GITHUB_RUN_ATTEMPT, assuming first attempt...") intends.  A set but
unparsable value does return 1, and a numeric value parses. -/
theorem run_attempt_unset_raises :
    get_run_attempt_num none = Except.error () ∧
      get_run_attempt_num (some "not-a-number") = Except.ok 1 ∧
      get_run_attempt_num (some "3") = Except.ok 3 := by
  refine ⟨rfl, ?_, ?_⟩ <;> rfl

/-- C8: the wait starts with the 10-minute timeout; 10 and 15 minutes are
the two per-state values; `connection_established` resets last-activity and
switches the timeout to 15 minutes; `keep_alive` only resets last-activity;
no other message changes the timeout; the per-tick check does not terminate
while the elapsed time is within the active timeout (and no close was
requested), and does terminate once it exceeds it. -/
theorem session_server_timeouts :
    (∀ t : Nat, (initialWaitState t).timeout = preConnectTimeout) ∧
      preConnectTimeout = 600 ∧ reConnectTimeout = 900 ∧
      (∀ (now : Nat) (env : List (String × String)) (s : WaitState),
        handleMessage now env s CONNECTION_ESTABLISHED =
          ({ s with lastTime := now, timeout := reConnectTimeout }, none)) ∧
      (∀ (now : Nat) (env : List (String × String)) (s : WaitState),
        handleMessage now env s KEEP_ALIVE =
          ({ s with lastTime := now }, none)) ∧
      (∀ (now : Nat) (env : List (String × String)) (s : WaitState)
          (msg : String), msg ≠ CONNECTION_ESTABLISHED →
        ((handleMessage now env s msg).1).timeout = s.timeout) ∧
      (∀ (now : Nat) (s : WaitState), s.waitingForClose = false →
        now - s.lastTime ≤ s.timeout → shouldTerminate now s = false) ∧
      (∀ (now : Nat) (s : WaitState), now - s.lastTime > s.timeout →
        shouldTerminate now s = true) := by
  refine ⟨fun t => rfl, rfl, rfl, fun now env s => rfl, fun now env s => rfl,
    ?_, ?_, ?_⟩
  · intro now env s msg h
    simp only [handleMessage]
    split_ifs <;> simp_all
  · intro now s h1 h2
    simp only [shouldTerminate, h1, Bool.false_or, decide_eq_false_iff_not]
    omega
  · intro now s h
    simp only [shouldTerminate, decide_eq_true h, Bool.or_true]

/-- Witness for C8: an unrelated message leaves the initial 10-minute
timeout in place; at 5 seconds of inactivity the check does not terminate,
at 601 seconds it does. -/
theorem session_server_timeouts_witness :
    ((handleMessage 100 [] (initialWaitState 0) "status").1).timeout =
        (initialWaitState 0).timeout ∧
      shouldTerminate 5 (initialWaitState 0) = false ∧
      shouldTerminate 601 (initialWaitState 0) = true := by
  refine ⟨?_, ?_, ?_⟩
  · exact session_server_timeouts.2.2.2.2.2.1 100 [] (initialWaitState 0)
      "status" (by decide)
  · exact session_server_timeouts.2.2.2.2.2.2.1 5 (initialWaitState 0) rfl
      (by decide)
  · exact session_server_timeouts.2.2.2.2.2.2.2 601 (initialWaitState 0)
      (by decide)

theorem fetchLoop_unauth_hard :
    ∀ (resps : List HttpResp) (auth : Bool) (cur slept : Nat),
      unauthHardFailTerminal (fetchLoop auth cur slept resps).1 resps = true ∧
      (hasUnauthHardFail (fetchLoop auth cur slept resps).1 resps = true →
        (fetchLoop auth cur slept resps).2 = none)
  | [], auth, cur, slept => by
      simp [fetchLoop, unauthHardFailTerminal, hasUnauthHardFail]
  | r :: rest, auth, cur, slept => by
      by_cases hcur : cur > totalAttempts
      · simp [fetchLoop, hcur, unauthHardFailTerminal, hasUnauthHardFail]
      · cases r with
        | ok body =>
          simp [fetchLoop, hcur, unauthHardFailTerminal, hasUnauthHardFail,
            respIsHardAuthErr]
        | exc =>
          have ih := fetchLoop_unauth_hard rest auth (cur + 1)
            (sleepAmount (cur + 1))
          simp [fetchLoop, hcur, unauthHardFailTerminal, hasUnauthHardFail,
            respIsHardAuthErr]
          exact ih
        | err code rl =>
          by_cases h404 : code = 404
          · subst h404
            simp [fetchLoop, hcur, unauthHardFailTerminal, hasUnauthHardFail,
              respIsHardAuthErr]
          · by_cases hae : isAuthErrCode code = true
            · cases auth with
              | true =>
                have ih := fetchLoop_unauth_hard rest false (cur + 1) 0
                simp [fetchLoop, hcur, h404, hae, unauthHardFailTerminal,
                  hasUnauthHardFail, respIsHardAuthErr]
                exact ih
              | false =>
                by_cases h403 : code = 403
                · subst h403
                  simp [fetchLoop, hcur, h404, hae, unauthHardFailTerminal,
                    hasUnauthHardFail, respIsHardAuthErr]
                · by_cases h401 : code = 401
                  · subst h401
                    simp [fetchLoop, hcur, h404, hae, unauthHardFailTerminal,
                      hasUnauthHardFail, respIsHardAuthErr]
                  · have ih := fetchLoop_unauth_hard rest false (cur + 1)
                      (sleepAmount (cur + 1))
                    simp [fetchLoop, hcur, h404, hae, h403, h401,
                      unauthHardFailTerminal, hasUnauthHardFail,
                      respIsHardAuthErr]
                    exact ih
            · have ih := fetchLoop_unauth_hard rest auth (cur + 1)
                (sleepAmount (cur + 1))
              have hae' : isAuthErrCode code = false := by
                simpa using hae
              have h401 : code ≠ 401 := by
                intro h; subst h; simp [isAuthErrCode] at hae'
              have h403 : code ≠ 403 := by
                intro h; subst h; simp [isAuthErrCode] at hae'
              simp [fetchLoop, hcur, h404, hae', h401, h403,
                unauthHardFailTerminal, hasUnauthHardFail, respIsHardAuthErr]
              exact ih

/-- Counterexample for C3: with no token, three scripted 429 responses
produce three unauthenticated attempts (with backoff sleeps of 2 and 4
seconds), so an unauthenticated 429 is NOT terminal — the claim's
"returns absent immediately and makes no further HTTP attempts" fails. -/
theorem unauth_429_retries_cx :
    unauthAuthErrTerminal
        (fetchLoop false 1 0
          [HttpResp.err 429 none, HttpResp.err 429 none,
            HttpResp.err 429 none]).1
        [HttpResp.err 429 none, HttpResp.err 429 none, HttpResp.err 429 none] =
      false ∧
      (fetchLoop false 1 0
        [HttpResp.err 429 none, HttpResp.err 429 none,
          HttpResp.err 429 none]).1.length = 3 := by
  exact ⟨by decide, by decide⟩

/-- C3 (amended): an unauthenticated attempt answered by 401 or 403 is the
last attempt of the fetch, and whenever such an attempt occurs the fetch
returns absent; an unauthenticated 429 instead retries with backoff (three
scripted 429s yield attempts with sleeps 0, 2 and 4 seconds and an absent
result). -/
theorem unauth_auth_error_handling :
    (∀ (resps : List HttpResp) (auth : Bool) (cur slept : Nat),
      unauthHardFailTerminal (fetchLoop auth cur slept resps).1 resps = true ∧
      (hasUnauthHardFail (fetchLoop auth cur slept resps).1 resps = true →
        (fetchLoop auth cur slept resps).2 = none)) ∧
      fetchLoop false 1 0
          [HttpResp.err 429 none, HttpResp.err 429 none,
            HttpResp.err 429 none] =
        ([⟨false, 0⟩, ⟨false, 2⟩, ⟨false, 4⟩], none) := by
  exact ⟨fetchLoop_unauth_hard, by decide⟩

/-- Witness for C3 (amended): one scripted unauthenticated 401 — the trace
contains an unauthenticated hard failure and the fetch result is absent. -/
theorem unauth_auth_error_handling_witness :
    (fetchLoop false 1 0 [HttpResp.err 401 none]).2 = none :=
  (unauth_auth_error_handling.1 [HttpResp.err 401 none] false 1 0).2 (by decide)

theorem fetchLoop_false_unauth :
    ∀ (resps : List HttpResp) (cur slept : Nat),
      allUnauthenticated (fetchLoop false cur slept resps).1 = true
  | [], _, _ => rfl
  | r :: rest, cur, slept => by
      by_cases hcur : cur > totalAttempts
      · simp [fetchLoop, hcur, allUnauthenticated]
      · cases r with
        | ok body => simp [fetchLoop, hcur, allUnauthenticated]
        | exc =>
          have ih := fetchLoop_false_unauth rest (cur + 1) (sleepAmount (cur + 1))
          simpa [fetchLoop, hcur, allUnauthenticated] using ih
        | err code rl =>
          by_cases h404 : code = 404
          · subst h404; simp [fetchLoop, hcur, allUnauthenticated]
          · by_cases hae : isAuthErrCode code = true
            · by_cases h403 : code = 403
              · subst h403; simp [fetchLoop, hcur, hae, allUnauthenticated]
              · by_cases h401 : code = 401
                · subst h401; simp [fetchLoop, hcur, hae, allUnauthenticated]
                · have ih := fetchLoop_false_unauth rest (cur + 1)
                    (sleepAmount (cur + 1))
                  simpa [fetchLoop, hcur, h404, hae, h403, h401,
                    allUnauthenticated] using ih
            · have hae' : isAuthErrCode code = false := by simpa using hae
              have ih := fetchLoop_false_unauth rest (cur + 1)
                (sleepAmount (cur + 1))
              simpa [fetchLoop, hcur, h404, hae', allUnauthenticated] using ih

theorem noAuthDowngrade_of_allUnauth :
    ∀ (tr : List Attempt) (rs : List HttpResp),
      allUnauthenticated tr = true → noAuthDowngrade tr rs = true
  | [], rs, _ => by cases rs <;> rfl
  | a :: tr, [], _ => rfl
  | a :: tr, r :: rs, h => by
      simp [allUnauthenticated] at h
      simp [noAuthDowngrade, h.1,
        noAuthDowngrade_of_allUnauth tr rs (by
          simpa [allUnauthenticated] using h.2)]

theorem fetchLoop_head :
    ∀ (resps : List HttpResp) (auth : Bool) (cur slept : Nat),
      (fetchLoop auth cur slept resps).1 = [] ∨
        ∃ tl, (fetchLoop auth cur slept resps).1 =
          (⟨auth, slept⟩ : Attempt) :: tl := by
  intro resps auth cur slept
  cases resps with
  | nil => exact Or.inl rfl
  | cons r rest =>
    by_cases hcur : cur > totalAttempts
    · exact Or.inl (by simp [fetchLoop, hcur])
    · right
      cases r with
      | ok body => exact ⟨[], by simp [fetchLoop, hcur]⟩
      | exc =>
        exact ⟨(fetchLoop auth (cur + 1) (sleepAmount (cur + 1)) rest).1,
          by simp [fetchLoop, hcur]⟩
      | err code rl =>
        simp only [fetchLoop, hcur, if_false]
        split_ifs <;> exact ⟨_, rfl⟩

theorem fetchLoop_downgrade_check :
    ∀ (resps : List HttpResp) (auth : Bool) (cur slept : Nat),
      downgradeNextCheck (fetchLoop auth cur slept resps).1 resps = true
  | [], _, _, _ => rfl
  | r :: rest, auth, cur, slept => by
      by_cases hcur : cur > totalAttempts
      · simp [fetchLoop, hcur, downgradeNextCheck]
      · cases r with
        | ok body =>
          simp [fetchLoop, hcur, downgradeNextCheck, respIsAuthErr]
        | exc =>
          have ih := fetchLoop_downgrade_check rest auth (cur + 1)
            (sleepAmount (cur + 1))
          simpa [fetchLoop, hcur, downgradeNextCheck, respIsAuthErr] using ih
        | err code rl =>
          by_cases h404 : code = 404
          · subst h404
            simp [fetchLoop, hcur, downgradeNextCheck, respIsAuthErr,
              isAuthErrCode]
          · by_cases hae : isAuthErrCode code = true
            · cases auth with
              | true =>
                have hall := fetchLoop_false_unauth rest (cur + 1) 0
                have hnd := noAuthDowngrade_of_allUnauth
                  (fetchLoop false (cur + 1) 0 rest).1 rest hall
                rcases fetchLoop_head rest false (cur + 1) 0 with hh | ⟨tl, hh⟩ <;>
                  simp [fetchLoop, hcur, h404, hae, downgradeNextCheck,
                    respIsAuthErr, hh, hnd] <;>
                  simp [hh] at hnd <;> simpa using hnd
              | false =>
                by_cases h403 : code = 403
                · subst h403
                  simp [fetchLoop, hcur, hae, downgradeNextCheck, respIsAuthErr]
                · by_cases h401 : code = 401
                  · subst h401
                    simp [fetchLoop, hcur, hae, downgradeNextCheck, respIsAuthErr]
                  · have ih := fetchLoop_downgrade_check rest false (cur + 1)
                      (sleepAmount (cur + 1))
                    simpa [fetchLoop, hcur, h404, hae, h403, h401,
                      downgradeNextCheck, respIsAuthErr] using ih
            · have hae' : isAuthErrCode code = false := by simpa using hae
              have ih := fetchLoop_downgrade_check rest auth (cur + 1)
                (sleepAmount (cur + 1))
              simpa [fetchLoop, hcur, h404, hae', downgradeNextCheck,
                respIsAuthErr] using ih

/-- Counterexample for C4: with a token and scripted responses
(exception, exception, 401), the 401 arrives on the third and final
attempt; the token is stripped but NO next attempt is made — the claim's
"the very next attempt is made without the Authorization header" fails. -/
theorem downgrade_on_last_attempt_cx :
    downgradeNextStrict
        (fetchLoop true 1 0
          [HttpResp.exc, HttpResp.exc, HttpResp.err 401 none]).1
        [HttpResp.exc, HttpResp.exc, HttpResp.err 401 none] = false := by
  decide

theorem fetchLoop_cons_ne_nil
    (r : HttpResp) (rest : List HttpResp) (auth : Bool) (cur slept : Nat)
    (h : cur ≤ totalAttempts) :
    (fetchLoop auth cur slept (r :: rest)).1 ≠ [] := by
  have hcur : ¬cur > totalAttempts := by omega
  cases r with
  | ok body => simp [fetchLoop, hcur]
  | exc => simp [fetchLoop, hcur]
  | err code rl =>
    simp only [fetchLoop, hcur, if_false]
    split_ifs <;> simp

theorem downgrade_attempt_is_made
    (code : Nat) (rl : Option String) (r' : HttpResp) (rest : List HttpResp)
    (cur slept : Nat)
    (hcode : isAuthErrCode code = true) (hlt : cur < totalAttempts) :
    ∃ tl, (fetchLoop true cur slept (HttpResp.err code rl :: r' :: rest)).1 =
      (⟨true, slept⟩ : Attempt) :: (⟨false, 0⟩ : Attempt) :: tl := by
  have hcur : ¬cur > totalAttempts := by omega
  have h404 : ¬code = 404 := by
    intro h; subst h; simp [isAuthErrCode] at hcode
  have hstep : fetchLoop true cur slept (HttpResp.err code rl :: r' :: rest) =
      ((⟨true, slept⟩ : Attempt) :: (fetchLoop false (cur + 1) 0 (r' :: rest)).1,
        (fetchLoop false (cur + 1) 0 (r' :: rest)).2) := by
    conv_lhs => rw [fetchLoop]
    simp [hcur, h404, hcode]
  rcases fetchLoop_head (r' :: rest) false (cur + 1) 0 with hh | ⟨tl, hh⟩
  · exact absurd hh (fetchLoop_cons_ne_nil r' rest false (cur + 1) 0 (by omega))
  · refine ⟨tl, ?_⟩
    rw [hstep]
    simpa using hh

/-- C4 (amended): whenever an authenticated attempt (at any reachable loop
state: counter `cur`, preceding sleep `slept`) is answered by 401/403/429
and the three-attempt budget is not yet exhausted (`cur < 3`), the very
next attempt IS made, unauthenticated and with no backoff sleep (the trace
continues with exactly `⟨false, 0⟩`); whenever a downgrade occurs, any
following attempt is unauthenticated with no sleep and no second downgrade
ever happens; if the auth error arrives on the final attempt, no further
attempt is made and the fetch ends without data (concrete boundary run
shown). -/
theorem auth_error_downgrade_behaviour :
    (∀ (resps : List HttpResp) (auth : Bool) (cur slept : Nat),
      downgradeNextCheck (fetchLoop auth cur slept resps).1 resps = true) ∧
      (∀ (code : Nat) (rl : Option String) (r' : HttpResp)
          (rest : List HttpResp) (cur slept : Nat),
        isAuthErrCode code = true → cur < totalAttempts →
        ∃ tl, (fetchLoop true cur slept
            (HttpResp.err code rl :: r' :: rest)).1 =
          (⟨true, slept⟩ : Attempt) :: (⟨false, 0⟩ : Attempt) :: tl) ∧
      fetchLoop true 1 0 [HttpResp.exc, HttpResp.exc, HttpResp.err 401 none] =
        ([⟨true, 0⟩, ⟨true, 2⟩, ⟨true, 4⟩], none) := by
  exact ⟨fetchLoop_downgrade_check, downgrade_attempt_is_made, by decide⟩

/-- Witness for C4 (amended): an authenticated first attempt answered by
403 with budget remaining — the next attempt is actually made,
unauthenticated and with no sleep before it. -/
theorem auth_error_downgrade_behaviour_witness :
    ∃ tl, (fetchLoop true 1 0
        [HttpResp.err 403 none, HttpResp.err 403 none]).1 =
      (⟨true, 0⟩ : Attempt) :: (⟨false, 0⟩ : Attempt) :: tl :=
  auth_error_downgrade_behaviour.2.1 403 none (HttpResp.err 403 none) [] 1 0
    (by decide) (by decide)


theorem mem_insertPair :
    ∀ (x a : String × String) (l : List (String × String)),
      a ∈ insertPair x l ↔ a = x ∨ a ∈ l
  | x, a, [] => by simp [insertPair]
  | x, a, y :: ys => by
      simp only [insertPair]
      split_ifs with h
      · simp
      · rw [List.mem_cons, mem_insertPair x a ys, List.mem_cons]
        tauto

theorem mem_sortPairsByKey (l : List (String × String)) (a : String × String) :
    a ∈ sortPairsByKey l ↔ a ∈ l := by
  induction l with
  | nil => simp [sortPairsByKey]
  | cons x xs ih =>
    rw [show sortPairsByKey (x :: xs) = insertPair x (sortPairsByKey xs) from
      rfl, mem_insertPair, ih, List.mem_cons]

theorem mem_insertStr :
    ∀ (x a : String) (l : List String), a ∈ insertStr x l ↔ a = x ∨ a ∈ l
  | x, a, [] => by simp [insertStr]
  | x, a, y :: ys => by
      simp only [insertStr]
      split_ifs with h
      · simp
      · rw [List.mem_cons, mem_insertStr x a ys, List.mem_cons]
        tauto

theorem mem_sortStrs (l : List String) (a : String) :
    a ∈ sortStrs l ↔ a ∈ l := by
  induction l with
  | nil => simp [sortStrs]
  | cons x xs ih =>
    rw [show sortStrs (x :: xs) = insertStr x (sortStrs xs) from rfl,
      mem_insertStr, ih, List.mem_cons]

theorem github_token_mem_final_denylist
    (environ : List (String × String)) (deny : List String) (check : Bool) :
    "GITHUB_TOKEN" ∈ final_denylist environ deny check := by
  have hbase : "GITHUB_TOKEN" ∈ (deny ++ VARS_DENYLIST).dedup := by
    rw [List.mem_dedup]
    exact List.mem_append_right deny (by simp [VARS_DENYLIST])
  cases check with
  | false => simpa [final_denylist] using hbase
  | true =>
    simp only [final_denylist, add_vars_from_env, sortedDedup, if_true]
    rw [mem_sortStrs, List.mem_dedup]
    exact List.mem_append_left _ hbase

theorem env_capture_rules :
    (∀ (environ : List (String × String)) (deny : List String)
        (allow : Option (List String)) (check : Bool) (kv : String × String),
      kv ∈ save_env_state environ deny allow check ↔
        kv ∈ environ ∧
          (final_allowlist environ allow check = [] ∨
            kv.1 ∈ final_allowlist environ allow check) ∧
          kv.1 ∉ final_denylist environ deny check) ∧
      (∀ (environ : List (String × String)) (deny : List String)
          (check : Bool),
        "GITHUB_TOKEN" ∈ final_denylist environ deny check) ∧
      (∀ s : String,
        (pyStripChars s.toList).any (fun c => !(isPyWordAscii c || c = ',')) =
            true →
          get_names_from_env_vars_list s = []) := by
  refine ⟨?_, github_token_mem_final_denylist, ?_⟩
  · intro environ deny allow check kv
    rw [show save_env_state environ deny allow check =
      sortPairsByKey (environ.filter fun kv =>
        ((final_allowlist environ allow check).isEmpty ||
          (final_allowlist environ allow check).contains kv.1) &&
        !(final_denylist environ deny check).contains kv.1) from rfl]
    rw [mem_sortPairsByKey, List.mem_filter]
    simp [List.isEmpty_iff, List.elem_iff, and_assoc]
  · intro s h
    simp only [get_names_from_env_vars_list, h, if_true]
    split_ifs <;> rfl


/-- Counterexample for C5: the allowlist string " A,B" contains a space,
which is outside `[A-Za-z0-9_,]`, yet it is parsed as ["A","B"] (the code
strips leading/trailing whitespace before validating), so capture does NOT
behave as if the variable were unset: with it set, only A survives; with it
absent, C survives too. -/
theorem env_list_whitespace_cx :
    get_names_from_env_vars_list " A,B" = ["A", "B"] ∧
      (" A,B".toList.any (fun c => !(isPyWordAscii c || c = ','))) = true ∧
      save_env_state
          [("A", "1"), ("C", "2"),
            ("GML_ACTIONS_DEBUG_VARS_ALLOWLIST", " A,B")]
          VARS_DENYLIST none true = [("A", "1")] ∧
      save_env_state [("A", "1"), ("C", "2")] VARS_DENYLIST none true =
        [("A", "1"), ("C", "2")] := by
  exact ⟨by decide, by decide, by decide, by decide⟩

/-- Witness for C5 (amended): a variable in the allowlist and outside the
denylist is kept; the fixed token name is always in the effective denylist;
a semicolon-carrying list string is discarded whole. -/
theorem env_capture_rules_witness :
    ("A", "1") ∈ save_env_state [("A", "1")] ["B"] (some ["A"]) true ∧
      "GITHUB_TOKEN" ∈ final_denylist [] [] true ∧
      get_names_from_env_vars_list "A;B" = [] := by
  refine ⟨?_, env_capture_rules.2.1 [] [] true, env_capture_rules.2.2 "A;B" (by decide)⟩
  exact (env_capture_rules.1 [("A", "1")] ["B"] (some ["A"]) true
    ("A", "1")).mpr ⟨by decide, by decide, by decide⟩


/-- Counterexample for C6: if the server process environment carries
`GML_ACTIONS_DEBUG_VARS_ALLOWLIST=FOO`, the response to
`env_state_requested` is filtered by that allowlist as well (everything is
dropped here), not by the fixed deny-list only as the claim states. -/
theorem env_response_allowlist_cx :
    (process_messages 0
        [("BAR", "x"), ("GML_ACTIONS_DEBUG_VARS_ALLOWLIST", "FOO")]
        [ENV_STATE_REQUESTED] (initialWaitState 0)).responses = [[]] ∧
      envFixedDenyOnly
          [("BAR", "x"), ("GML_ACTIONS_DEBUG_VARS_ALLOWLIST", "FOO")] =
        [("BAR", "x"), ("GML_ACTIONS_DEBUG_VARS_ALLOWLIST", "FOO")] ∧
      (process_messages 0
          [("BAR", "x"), ("GML_ACTIONS_DEBUG_VARS_ALLOWLIST", "FOO")]
          [ENV_STATE_REQUESTED] (initialWaitState 0)).responses ≠
        [envFixedDenyOnly
          [("BAR", "x"), ("GML_ACTIONS_DEBUG_VARS_ALLOWLIST", "FOO")]] := by
  exact ⟨by decide, by decide, by decide⟩

/-- C6 (amended): on `env_state_requested` the server writes back one
message, the current environment filtered by the effective deny/allow
lists (the fixed deny-list extended by the `GML_ACTIONS_DEBUG_VARS_*`
variables of its own environment), leaves the wait state untouched, and
closes the connection; when those two variables are unset this equals the
fixed-deny-list-only filtering with no allowlist. -/
theorem env_state_request_response
    (environ : List (String × String)) (s : WaitState) (now : Nat)
    (h1 : lookupEnv environ ENV_DENYLIST_VAR_NAME = none)
    (h2 : lookupEnv environ ENV_ALLOWLIST_VAR_NAME = none) :
    process_messages now environ [ENV_STATE_REQUESTED] s =
      ⟨s, [envFixedDenyOnly environ], true⟩ := by
  have hd : final_denylist environ VARS_DENYLIST true = ["GITHUB_TOKEN"] := by
    unfold final_denylist
    rw [h1]
    rfl
  have ha : final_allowlist environ none true = [] := by
    unfold final_allowlist
    rw [h2]
    rfl
  have hs : save_env_state environ VARS_DENYLIST none true =
      envFixedDenyOnly environ := by
    unfold save_env_state envFixedDenyOnly
    rw [hd, ha]
    simp [VARS_DENYLIST]
  rw [← hs]
  rfl

/-- Witness for C6 (amended): the spec scenario — environment `FOO=bar`,
one `env_state_requested` message — yields the single-line response
`{"FOO": "bar"}`, an unchanged state, and a closed connection. -/
theorem env_state_request_response_witness :
    process_messages 0 [("FOO", "bar")] [ENV_STATE_REQUESTED]
        (initialWaitState 0) =
      ⟨initialWaitState 0, [[("FOO", "bar")]], true⟩ := by
  exact (env_state_request_response [("FOO", "bar")] (initialWaitState 0) 0
    rfl rfl).trans (by decide)


/-- Counterexample for C7: a 200 body that is valid JSON of the wrong
shape (the object `{}`) makes `retrieve_labels` return absent WITHOUT
consulting the event-payload fallback, even though a perfectly good
payload is available — the claim's "triggers the fallback path" fails for
shape-malformed data. -/
theorem malformed_shape_no_fallback_cx :
    (retrieve_labels "refs/pull/7/merge" false [HttpResp.ok "notalist"]
        (fun s => if s = "notalist" then some (Json.obj []) else none)
        (some (Json.obj [("pull_request",
          Json.obj [("labels", Json.arr [])])]))).usedFallback = false ∧
      (retrieve_labels "refs/pull/7/merge" false [HttpResp.ok "notalist"]
        (fun s => if s = "notalist" then some (Json.obj []) else none)
        (some (Json.obj [("pull_request",
          Json.obj [("labels", Json.arr [])])]))).outcome =
        Except.ok none := by
  exact ⟨rfl, rfl⟩

/-- C7 (amended): a body that fails JSON parsing makes the API stage
return absent; an absent API stage triggers the event-file fallback and
never raises; a body that parses to an unexpected shape (non-list, or
elements without a usable `name`) yields an absent result with no
exception but WITHOUT consulting the fallback. -/
theorem malformed_body_handling :
    (∀ (tok : Bool) (resps : List HttpResp) (parse : String → Option Json)
        (body : String),
      (fetchLoop tok 1 0 resps).2 = some body → parse body = none →
        (get_labels_via_api tok resps parse).2 = none) ∧
      (∀ (ref : String) (tok : Bool) (resps : List HttpResp)
          (parse : String → Option Json) (payload : Option Json)
          (d : List Char),
        ref ≠ "" → ("refs/pull/".toList.isPrefixOf ref.toList) = true →
        prSearch ref.toList = some d →
        (get_labels_via_api tok resps parse).2 = none →
          (retrieve_labels ref tok resps parse payload).usedFallback = true ∧
          exceptIsOk (retrieve_labels ref tok resps parse payload).outcome =
            true) ∧
      (∀ (ref : String) (tok : Bool) (resps : List HttpResp)
          (parse : String → Option Json) (payload : Option Json)
          (d : List Char) (j : Json),
        ref ≠ "" → ("refs/pull/".toList.isPrefixOf ref.toList) = true →
        prSearch ref.toList = some d →
        (get_labels_via_api tok resps parse).2 = some j →
        extract_labels j = none →
          retrieve_labels ref tok resps parse payload =
            ⟨Except.ok none, false⟩) := by
  refine ⟨?_, ?_, ?_⟩
  · intro tok resps parse body h1 h2
    simp only [get_labels_via_api, h1, h2]
    split_ifs <;> rfl
  · intro ref tok resps parse payload d h1 h2 h3 h4
    simp only [retrieve_labels, h1, h2, h3, h4, if_neg, Bool.not_true]
    cases hev : (get_labels_from_event_file payload).bind pyCollapseNull <;>
      simp [hev, exceptIsOk]
  · intro ref tok resps parse payload d j h1 h2 h3 h4 h5
    simp only [retrieve_labels, h1, h2, h3, h4, h5, if_neg, Bool.not_true]
    simp [h5]

/-- Witness for C7 (amended): an unparsable body gives an absent API
stage; the fallback is then consulted (here supplying one label) with a
normal return; and a wrong-shape parse returns absent without fallback. -/
theorem malformed_body_handling_witness :
    (get_labels_via_api false [HttpResp.ok "oops"] (fun _ => none)).2 =
        none ∧
      (retrieve_labels "refs/pull/7/merge" false [HttpResp.ok "oops"]
          (fun _ => none)
          (some (Json.obj [("pull_request",
            Json.obj [("labels", Json.arr [])])]))).usedFallback = true ∧
      retrieve_labels "refs/pull/7/merge" false [HttpResp.ok "notalist"]
          (fun s => if s = "notalist" then some (Json.obj []) else none) none =
        ⟨Except.ok none, false⟩ := by
  refine ⟨?_, ?_, ?_⟩
  · exact malformed_body_handling.1 false [HttpResp.ok "oops"] (fun _ => none)
      "oops" rfl rfl
  · exact (malformed_body_handling.2.1 "refs/pull/7/merge" false
      [HttpResp.ok "oops"] (fun _ => none)
      (some (Json.obj [("pull_request", Json.obj [("labels", Json.arr [])])]))
      ('7' :: []) (by decide) (by decide) rfl rfl).1
  · exact malformed_body_handling.2.2 "refs/pull/7/merge" false
      [HttpResp.ok "notalist"] (fun s => if s = "notalist" then some (Json.obj []) else none)
      none ('7' :: []) (Json.obj []) (by decide) (by decide) rfl rfl rfl

/-- Counterexample for C10: with `GITHUB_REF` unset or empty,
`retrieve_labels` raises `EnvironmentError` ("Is this being run outside of
GitHub Actions?") instead of converting the problem into an absent result,
so it is not true that it never raises. -/
theorem retrieve_labels_raises_cx :
    (retrieve_labels "" false [] (fun _ => none) none).outcome =
      Except.error () := rfl

/-- C10 (amended): provided `GITHUB_REF` is non-empty, every execution of
`retrieve_labels` returns normally (list or absent) — all fetch-internal
errors are absorbed; the only abnormal exit is the `EnvironmentError` on an
empty `GITHUB_REF`. -/
theorem retrieve_labels_no_raise
    (ref : String) (tok : Bool) (resps : List HttpResp)
    (parse : String → Option Json) (payload : Option Json)
    (h : ref ≠ "") :
    exceptIsOk (retrieve_labels ref tok resps parse payload).outcome =
      true := by
  simp only [retrieve_labels]
  rw [if_neg h]
  split_ifs with hp
  · rfl
  · cases hps : prSearch ref.toList with
    | none => simp [hps, exceptIsOk]
    | some d =>
      cases hapi : (get_labels_via_api tok resps parse).2 with
      | none =>
        cases hev : (get_labels_from_event_file payload).bind pyCollapseNull <;>
          simp [hps, hapi, hev, exceptIsOk]
      | some j => simp [hps, hapi, exceptIsOk]

/-- Witness for C10 (amended): a non-PR ref returns normally (the empty
label list). -/
theorem retrieve_labels_no_raise_witness :
    exceptIsOk (retrieve_labels "refs/heads/main" false [] (fun _ => none)
        none).outcome = true :=
  retrieve_labels_no_raise "refs/heads/main" false [] (fun _ => none) none
    (by decide)

end CiConn
